import Mathlib

/-!
Shallow embedding of the acc-backend note server (src/server.js).

The server keeps two pieces of persistent state: a MongoDB collection of
Note documents and a directory of uploaded image files.  We model the
collection as a list of `Note` records (insertion order) and the uploads
directory as a list of stored file names.  Each HTTP handler of server.js
becomes a pure Lean function from state and request data to a response
value and a new state.
-/

namespace AccBackend

/-- A persisted note document (NoteSchema, server.js lines 57-64).
`chapterId` is stored as a number; documents that reach the database have a
real (non-NaN) value because the NaN cast fails at save time, so we use
`Int`.  `createdAt` is a timestamp (milliseconds). -/
structure Note where
  id : Nat
  title : String
  authorName : String
  paper : String
  chapterId : Int
  images : List String
  createdAt : Nat
  deriving Repr, DecidableEq

/-- The persistent state: the Note collection plus the names of the files
currently stored in the uploads directory (multer-generated names, which
never contain a path separator). -/
structure ServerState where
  db : List Note
  files : List String
  deriving Repr, DecidableEq

/-- A chapter of the static catalog (server.js lines 216-239). -/
structure Chapter where
  id : Nat
  title : String
  paper : String
  deriving Repr, DecidableEq

/-! ### JavaScript primitives used by the handlers -/

/-- Whitespace skipped by JavaScript `parseInt`. -/
def jsWhitespace (c : Char) : Bool :=
  c = ' ' || c = '\t' || c = '\n' || c = '\r' || c = '\x0b' || c = '\x0c'

/-- Decimal digit value. -/
def digitValue (c : Char) : Option Nat :=
  if '0' ≤ c ∧ c ≤ '9' then some (c.toNat - '0'.toNat) else none

/-- Hexadecimal digit value. -/
def hexDigitValue (c : Char) : Option Nat :=
  if '0' ≤ c ∧ c ≤ '9' then some (c.toNat - '0'.toNat)
  else if 'a' ≤ c ∧ c ≤ 'f' then some (c.toNat - 'a'.toNat + 10)
  else if 'A' ≤ c ∧ c ≤ 'F' then some (c.toNat - 'A'.toNat + 10)
  else none

/-- Consume leading digits (per `dv`) of `cs`, accumulating a value in base
`base`; `none` when no digit has been consumed yet, mirroring how
JavaScript `parseInt` returns NaN when it reads no digit at all. -/
def takeDigits (dv : Char → Option Nat) (base : Nat) : List Char → Option Nat → Option Nat
  | [], acc => acc
  | c :: cs, acc =>
    match dv c with
    | some d => takeDigits dv base cs (some ((acc.getD 0) * base + d))
    | none => acc

/-- JavaScript `parseInt(s)` with no radix argument: skip whitespace, read
an optional sign, honour a `0x`/`0X` hexadecimal prefix, read leading
digits and ignore the rest; `none` models NaN. -/
def parseIntJS (s : String) : Option Int :=
  let cs := s.toList.dropWhile jsWhitespace
  let signed : Int × List Char :=
    match cs with
    | '-' :: rest => (-1, rest)
    | '+' :: rest => (1, rest)
    | _ => (1, cs)
  let body := signed.2
  let mag : Option Nat :=
    match body with
    | '0' :: x :: rest =>
      if x = 'x' ∨ x = 'X' then takeDigits hexDigitValue 16 rest none
      else takeDigits digitValue 10 body none
    | _ => takeDigits digitValue 10 body none
  mag.map (fun n => signed.1 * (n : Int))

/-- JavaScript `s.startsWith(p)`. -/
def startsWithJS (s p : String) : Bool :=
  p.toList.isPrefixOf s.toList

/-- Node `path.basename` (posix): drop trailing separators, then keep the
part after the last separator. -/
def basenameJS (p : String) : String :=
  String.mk (((p.toList.reverse.dropWhile (fun c => c = '/')).takeWhile
    (fun c => !(c = '/'))).reverse)

/-! ### Image URL rewriting (server.js lines 78-86 and 157-165) -/

/-- Rewrite one `images` entry: an entry starting with `"http"` is returned
unchanged, any other entry is prefixed with the request scheme and host. -/
def toFullUrl (protocol host img : String) : String :=
  if startsWithJS img "http" then img else protocol ++ "://" ++ host ++ img

/-- The `notesWithFullUrls` map: spread `note._doc` and replace `images`. -/
def withFullUrls (protocol host : String) (n : Note) : Note :=
  { n with images := n.images.map (toFullUrl protocol host) }

/-! ### Sorting by creation time (`.sort(\x7bcreatedAt: -1\x7d)`) -/

/-- Insert a note into a list already sorted by `createdAt` descending. -/
def insertByCreatedAtDesc (n : Note) : List Note → List Note
  | [] => [n]
  | m :: ms =>
    if n.createdAt ≤ m.createdAt then m :: insertByCreatedAtDesc n ms
    else n :: m :: ms

/-- Sort notes by `createdAt` descending (newest first). -/
def sortByCreatedAtDesc (l : List Note) : List Note :=
  l.foldr insertByCreatedAtDesc []

/-! ### GET /api/notes (server.js lines 71-94) -/

/-- Fetch all notes, newest first, images rewritten to full URLs. -/
def getAllNotes (db : List Note) (protocol host : String) : List Note :=
  (sortByCreatedAtDesc db).map (withFullUrls protocol host)

/-! ### GET /api/notes/:paper/:chapterId (server.js lines 145-173) -/

/-- Response of the paper/chapter list endpoint: 200 with the notes, or
the 500 the catch (lines 169-172) answers when the query fails. -/
inductive NotesResult where
  | ok (notes : List Note)
  | castError
  deriving Repr, DecidableEq

/-- HTTP status of a paper/chapter list response. -/
def NotesResult.status : NotesResult → Nat
  | .ok _ => 200
  | .castError => 500

/-- `Note.find(\x7bpaper, chapterId: parseInt(chapterId)\x7d)` followed by the
descending sort and the URL rewrite.  A non-numeric path parameter makes
`parseInt` return NaN; Mongoose's caster for the `chapterId` Number path
rejects NaN, so `Note.find` rejects with a CastError before any query
runs and the handler's catch answers 500 with the error message. -/
def getNotesByChapter (db : List Note) (paper chapterIdStr protocol host : String) :
    NotesResult :=
  match parseIntJS chapterIdStr with
  | none => .castError
  | some k =>
    .ok ((sortByCreatedAtDesc (db.filter
      (fun n => n.paper == paper && n.chapterId == k))).map (withFullUrls protocol host))

/-! ### POST /api/notes (server.js lines 97-142) -/

/-- A create request: the multipart body fields (absent field = `none`),
the multer-generated names of the uploaded files (in upload order), the
request scheme and host, and the current time used for `createdAt`. -/
structure CreateRequest where
  title : Option String
  authorName : Option String
  paper : Option String
  chapterId : Option String
  files : List String
  protocol : String
  host : String
  now : Nat
  deriving Repr, DecidableEq

/-- Mongoose `required: true` check for a String path: the value must be
present and non-empty. -/
def checkRequiredString (o : Option String) : Bool :=
  match o with
  | some s => !(s == "")
  | none => false

/-- Cast of the `chapterId` body field: `parseInt` of the field, where an
absent field (`parseInt(undefined)`) and a non-numeric field both give NaN
(`none`), which mongoose rejects. -/
def castChapterId (o : Option String) : Option Int :=
  match o with
  | some s => parseIntJS s
  | none => none

/-- Response of the create handler: 201 with the created note, or 400 with
an error message. -/
inductive CreateResult where
  | created (note : Note)
  | badRequest (message : String)
  deriving Repr, DecidableEq

/-- HTTP status of a create response. -/
def CreateResult.status : CreateResult → Nat
  | .created _ => 201
  | .badRequest _ => 400

/-- The create handler.  Multer writes the uploaded files to the uploads
directory before the handler body runs, so `req.files` is appended to the
store unconditionally.  Then: zero files → 400 "No images uploaded";
a failed mongoose validation or chapterId cast at `save()` → 400; otherwise
the note is inserted and returned with absolute image URLs (the POST
response rewrites unconditionally, without the `http` check).
`newId` is the id the repository assigns to the new document. -/
def createNote (st : ServerState) (req : CreateRequest) (newId : Nat) :
    CreateResult × ServerState :=
  let filesAfter := st.files ++ req.files
  if req.files = [] then
    (.badRequest "No images uploaded", { st with files := filesAfter })
  else
    let images := req.files.map (fun f => "/uploads/" ++ f)
    if checkRequiredString req.title && checkRequiredString req.authorName &&
        checkRequiredString req.paper then
      match castChapterId req.chapterId with
      | some k =>
        let note : Note :=
          { id := newId
            title := req.title.getD ""
            authorName := req.authorName.getD ""
            paper := req.paper.getD ""
            chapterId := k
            images := images
            createdAt := req.now }
        (.created { note with
            images := images.map (fun img => req.protocol ++ "://" ++ req.host ++ img) },
         { db := st.db ++ [note], files := filesAfter })
      | none => (.badRequest "Note validation failed", { st with files := filesAfter })
    else
      (.badRequest "Note validation failed", { st with files := filesAfter })

/-! ### DELETE /api/notes/:id (server.js lines 176-209) -/

/-- `Note.findById`. -/
def findById (db : List Note) (id : Nat) : Option Note :=
  db.find? (fun n => n.id == id)

/-- A stored-file name is a regular directory entry: not empty, `"."` or
`".."`.  For such a name `path.join(__dirname, 'uploads', name)` is a path
directly inside the uploads directory; for the three degenerate names the
joined path normalizes to the uploads directory itself or its parent,
which exists as a directory, so `fs.unlinkSync` throws. -/
def regularBasename (name : String) : Bool :=
  !(name == "" || name == "." || name == "..")

/-- `path.join` of a base path (as segments) with one extra segment that
contains no separator: `""` and `"."` are dropped, `".."` pops the last
segment, anything else is appended. -/
def joinSegments (base : List String) (name : String) : List String :=
  if name = "" then base
  else if name = "." then base
  else if name = ".." then base.dropLast
  else base ++ [name]

/-- The filesystem path targeted when deleting one `images` entry
(server.js lines 191-192): `path.join(__dirname, 'uploads',
path.basename(imagePath))`, as path segments relative to the server root. -/
def deleteTargetSegments (img : String) : List String :=
  joinSegments ["__dirname", "uploads"] (basenameJS img)

/-- The `note.images.forEach` loop: for each entry take the basename; if
that file exists in the uploads directory, unlink it; an absent file is
skipped silently.  A degenerate basename makes the joined path an existing
directory, on which `unlinkSync` throws (`Except.error` carries the files
already removed before the throw). -/
def unlinkImages : List String → List String → Except (List String) (List String)
  | files, [] => Except.ok files
  | files, img :: rest =>
    let name := basenameJS img
    if regularBasename name then
      unlinkImages (if name ∈ files then files.erase name else files) rest
    else
      Except.error files

/-- Response of the delete handler. -/
inductive DeleteResult where
  | notFound (message : String)
  | deleted (message : String)
  | serverError
  deriving Repr, DecidableEq

/-- HTTP status of a delete response. -/
def DeleteResult.status : DeleteResult → Nat
  | .notFound _ => 404
  | .deleted _ => 200
  | .serverError => 500

/-- The delete handler: look the note up; absent → 404 and no change;
otherwise remove each referenced file from the uploads directory, then
delete the document (`findByIdAndDelete` removes the single document with
that id), and answer 200.  An `unlinkSync` throw is caught and answered
with 500, the document still in place. -/
def deleteNote (st : ServerState) (id : Nat) : DeleteResult × ServerState :=
  match findById st.db id with
  | none => (.notFound "Note not found", st)
  | some note =>
    match unlinkImages st.files note.images with
    | Except.error partialFiles => (.serverError, { st with files := partialFiles })
    | Except.ok files2 =>
      (.deleted "Note deleted successfully",
       { db := st.db.eraseP (fun n => n.id == id), files := files2 })

/-! ### GET /api/chapters/:paper (server.js lines 212-246) -/

/-- The hardcoded first-paper chapter list (10 entries). -/
def accounting1Chapters : List Chapter :=
  [ { id := 1, title := "হিসাববিজ্ঞান পরিচিতি", paper := "1st Paper" },
    { id := 2, title := "হিসাব বইসমূহ", paper := "1st Paper" },
    { id := 3, title := "ব্যাংক সমন্বয় বিবরণী", paper := "1st Paper" },
    { id := 4, title := "রেওয়ামিল", paper := "1st Paper" },
    { id := 5, title := "হিসাবের নীতিমালা", paper := "1st Paper" },
    { id := 6, title := "প্রাপ্য হিসাবসমূহের হিসাবরক্ষণ", paper := "1st Paper" },
    { id := 7, title := "কার্যপত্র", paper := "1st Paper" },
    { id := 8, title := "দৃশ্যমান ও অদৃশ্যমান সম্পদের হিসাবরক্ষণ", paper := "1st Paper" },
    { id := 9, title := "আর্থিক বিবরণী", paper := "1st Paper" },
    { id := 10, title := "একতরফা দাখিলা পদ্ধতি", paper := "1st Paper" } ]

/-- The hardcoded second-paper chapter list (9 entries). -/
def accounting2Chapters : List Chapter :=
  [ { id := 1, title := "অংশীদারি ব্যবসায়ের হিসাব", paper := "2nd Paper" },
    { id := 2, title := "কোম্পানি হিসাব", paper := "2nd Paper" },
    { id := 3, title := "ব্যয় হিসাববিজ্ঞান", paper := "2nd Paper" },
    { id := 4, title := "বাজেট ও বাজেট নিয়ন্ত্রণ", paper := "2nd Paper" },
    { id := 5, title := "আর্থিক বিবরণী বিশ্লেষণ", paper := "2nd Paper" },
    { id := 6, title := "অলাভজনক প্রতিষ্ঠানের হিসাব", paper := "2nd Paper" },
    { id := 7, title := "শাখা হিসাব", paper := "2nd Paper" },
    { id := 8, title := "বিভাগীয় হিসাব", paper := "2nd Paper" },
    { id := 9, title := "কম্পিউটারাইজড হিসাববিজ্ঞান", paper := "2nd Paper" } ]

/-- The chapters handler: exact string comparison with `"1st Paper"`
selects the first list, every other value selects the second list. -/
def getChapters (paper : String) : List Chapter :=
  if paper = "1st Paper" then accounting1Chapters else accounting2Chapters

/-! ## Helper lemmas -/

theorem mem_insertByCreatedAtDesc {m n : Note} {l : List Note} :
    m ∈ insertByCreatedAtDesc n l ↔ m = n ∨ m ∈ l := by
  induction l with
  | nil => simp [insertByCreatedAtDesc]
  | cons a as ih =>
    rw [insertByCreatedAtDesc]
    split
    · simp only [List.mem_cons, ih]
      tauto
    · simp only [List.mem_cons]

theorem mem_sortByCreatedAtDesc {m : Note} {l : List Note} :
    m ∈ sortByCreatedAtDesc l ↔ m ∈ l := by
  induction l with
  | nil => simp [sortByCreatedAtDesc]
  | cons a as ih =>
    show m ∈ insertByCreatedAtDesc a (sortByCreatedAtDesc as) ↔ _
    rw [mem_insertByCreatedAtDesc, ih]
    simp

theorem toList_append (a b : String) : (a ++ b).toList = a.toList ++ b.toList := by
  cases a
  cases b
  rfl

theorem startsWithJS_uploads (f : String) :
    startsWithJS ("/uploads/" ++ f) "http" = false := by
  rw [startsWithJS, toList_append]
  rfl

/-! ## Claim theorems -/

/-- C2: `GET /api/chapters/:paper` returns the fixed 10-entry first-paper
list exactly when the parameter is the exact string `"1st Paper"`, and the
fixed 9-entry second-paper list for every other string; there is no
not-found or empty case. -/
theorem getChapters_spec :
    accounting1Chapters.length = 10 ∧ accounting2Chapters.length = 9 ∧
    (∀ p : String, getChapters p = accounting1Chapters ↔ p = "1st Paper") ∧
    (∀ p : String, p ≠ "1st Paper" → getChapters p = accounting2Chapters) := by
  refine ⟨rfl, rfl, ?_, ?_⟩
  · intro p
    constructor
    · intro h
      by_contra hp
      rw [getChapters, if_neg hp] at h
      exact absurd h (by decide)
    · intro h
      simp [getChapters, h]
  · intro p hp
    simp [getChapters, hp]

theorem getChapters_spec_witness :
    getChapters "2nd Paper" = accounting2Chapters :=
  getChapters_spec.2.2.2 "2nd Paper" (by decide)

/-- C4: a create request with zero uploaded files is answered 400 with
message "No images uploaded", no note is persisted and no file is
stored: the state is returned unchanged. -/
theorem createNote_noImages_spec (st : ServerState) (req : CreateRequest) (newId : Nat)
    (h : req.files = []) :
    createNote st req newId = (CreateResult.badRequest "No images uploaded", st) ∧
    (createNote st req newId).1.status = 400 := by
  cases st with
  | mk db files =>
    constructor
    · simp [createNote, h]
    · simp [createNote, h, CreateResult.status]

theorem createNote_noImages_witness :
    createNote ⟨[], []⟩
      ⟨some "t", some "a", some "1st Paper", some "1", [], "http", "h", 0⟩ 1
      = (CreateResult.badRequest "No images uploaded", ⟨[], []⟩) :=
  (createNote_noImages_spec ⟨[], []⟩
    ⟨some "t", some "a", some "1st Paper", some "1", [], "http", "h", 0⟩ 1 rfl).1

/-- C7: a create request missing any of the required fields `title`,
`authorName`, `paper`, `chapterId` fails with HTTP 400 and persists no
note record. -/
theorem createNote_missingField_spec (st : ServerState) (req : CreateRequest) (newId : Nat)
    (h : req.title = none ∨ req.authorName = none ∨ req.paper = none ∨
      req.chapterId = none) :
    (createNote st req newId).1.status = 400 ∧
    (createNote st req newId).2.db = st.db := by
  unfold createNote
  by_cases hf : req.files = []
  · simp [hf, CreateResult.status]
  · rcases h with h | h | h | h
    · simp [hf, h, checkRequiredString, CreateResult.status]
    · simp [hf, h, checkRequiredString, CreateResult.status]
    · simp [hf, h, checkRequiredString, CreateResult.status]
    · by_cases hreq : (checkRequiredString req.title && checkRequiredString req.authorName &&
        checkRequiredString req.paper) = true
      · simp [hf, hreq, h, castChapterId, CreateResult.status]
      · simp [hf, hreq, h, castChapterId, CreateResult.status]

theorem createNote_missingField_witness :
    (createNote ⟨[], []⟩
      ⟨none, some "a", some "1st Paper", some "1", ["f.png"], "http", "h", 0⟩ 1).1.status
      = 400 ∧
    (createNote ⟨[], []⟩
      ⟨none, some "a", some "1st Paper", some "1", ["f.png"], "http", "h", 0⟩ 1).2.db
      = [] :=
  createNote_missingField_spec ⟨[], []⟩
    ⟨none, some "a", some "1st Paper", some "1", ["f.png"], "http", "h", 0⟩ 1 (Or.inl rfl)

/-- C9: multer writes the uploaded files before the handler body runs, so
a create request that fails field validation still leaves its uploaded
files in the uploads directory, while the response is 400 and no note
record is persisted. -/
theorem createNote_failedValidationKeepsFiles_spec (st : ServerState) (req : CreateRequest)
    (newId : Nat) (hf : req.files ≠ [])
    (hv : checkRequiredString req.title = false ∨ checkRequiredString req.authorName = false ∨
      checkRequiredString req.paper = false ∨ castChapterId req.chapterId = none) :
    (createNote st req newId).1.status = 400 ∧
    (createNote st req newId).2.files = st.files ++ req.files ∧
    (createNote st req newId).2.db = st.db := by
  unfold createNote
  rcases hv with h | h | h | h
  · simp [hf, h, CreateResult.status]
  · simp [hf, h, CreateResult.status]
  · simp [hf, h, CreateResult.status]
  · by_cases hreq : (checkRequiredString req.title && checkRequiredString req.authorName &&
      checkRequiredString req.paper) = true
    · simp [hf, hreq, h, CreateResult.status]
    · simp [hf, hreq, h, CreateResult.status]

theorem createNote_failedValidationKeepsFiles_witness :
    (createNote ⟨[], ["old.png"]⟩
      ⟨none, some "a", some "1st Paper", some "1", ["f.png", "g.png"], "http", "h", 0⟩ 1).1.status
      = 400 ∧
    (createNote ⟨[], ["old.png"]⟩
      ⟨none, some "a", some "1st Paper", some "1", ["f.png", "g.png"], "http", "h", 0⟩ 1).2.files
      = ["old.png"] ++ ["f.png", "g.png"] ∧
    (createNote ⟨[], ["old.png"]⟩
      ⟨none, some "a", some "1st Paper", some "1", ["f.png", "g.png"], "http", "h", 0⟩ 1).2.db
      = [] :=
  createNote_failedValidationKeepsFiles_spec ⟨[], ["old.png"]⟩
    ⟨none, some "a", some "1st Paper", some "1", ["f.png", "g.png"], "http", "h", 0⟩ 1
    (by decide) (Or.inl rfl)

/-- C3 counterexample: the claim says a non-numeric `chapterId` path
parameter yields a filter that matches nothing and an empty 200 result;
but for the parameter `"abc"` the NaN cast is rejected by Mongoose and
the handler answers 500, not 200 with an empty list. -/
theorem getNotesByChapter_claim_counterexample :
    getNotesByChapter [] "1st Paper" "abc" "http" "host" = NotesResult.castError ∧
    (getNotesByChapter [] "1st Paper" "abc" "http" "host").status = 500 ∧
    ¬(getNotesByChapter [] "1st Paper" "abc" "http" "host" = NotesResult.ok []) := by
  exact ⟨by decide, by decide, by decide⟩

/-- C3 amended: when the `chapterId` path parameter parses to an integer
the endpoint answers 200 with exactly the notes whose `paper` equals the
path parameter and whose `chapterId` equals the parsed integer; when the
parameter is non-numeric the NaN filter value fails Mongoose's Number
cast, `Note.find` rejects with a CastError, and the response is 500 with
the error message — not an empty 200 result. -/
theorem getNotesByChapter_amended_spec (db : List Note) (paper s p h : String) :
    (parseIntJS s = none →
      getNotesByChapter db paper s p h = NotesResult.castError ∧
      (getNotesByChapter db paper s p h).status = 500) ∧
    (∀ k : Int, parseIntJS s = some k →
      ∃ notes : List Note, getNotesByChapter db paper s p h = NotesResult.ok notes ∧
        (getNotesByChapter db paper s p h).status = 200 ∧
        (∀ m : Note, m ∈ notes ↔
          ∃ n : Note, n ∈ db ∧ n.paper = paper ∧ n.chapterId = k ∧
            m = withFullUrls p h n)) := by
  constructor
  · intro hnan
    simp [getNotesByChapter, hnan, NotesResult.status]
  · intro k hk
    simp only [getNotesByChapter, hk]
    refine ⟨_, rfl, rfl, ?_⟩
    intro m
    rw [List.mem_map]
    constructor
    · rintro ⟨n, hn, rfl⟩
      rw [mem_sortByCreatedAtDesc, List.mem_filter, Bool.and_eq_true] at hn
      obtain ⟨hmem, hpap, hchap⟩ := hn
      exact ⟨n, hmem, by simpa using hpap, by simpa using hchap, rfl⟩
    · rintro ⟨n, hmem, hpap, hchap, rfl⟩
      refine ⟨n, ?_, rfl⟩
      rw [mem_sortByCreatedAtDesc, List.mem_filter]
      exact ⟨hmem, by simp [hpap, hchap]⟩

theorem getNotesByChapter_amended_witness :
    ∃ notes : List Note,
      getNotesByChapter
        [{ id := 1, title := "t", authorName := "a", paper := "1st Paper",
           chapterId := 3, images := [], createdAt := 0 }]
        "1st Paper" "3" "http" "host" = NotesResult.ok notes ∧
      (getNotesByChapter
        [{ id := 1, title := "t", authorName := "a", paper := "1st Paper",
           chapterId := 3, images := [], createdAt := 0 }]
        "1st Paper" "3" "http" "host").status = 200 ∧
      (∀ m : Note, m ∈ notes ↔
        ∃ n : Note,
          n ∈ [{ id := 1, title := "t", authorName := "a", paper := "1st Paper",
                 chapterId := 3, images := [], createdAt := 0 }] ∧
          n.paper = "1st Paper" ∧ n.chapterId = 3 ∧
          m = withFullUrls "http" "host" n) :=
  (getNotesByChapter_amended_spec
    [{ id := 1, title := "t", authorName := "a", paper := "1st Paper",
       chapterId := 3, images := [], createdAt := 0 }]
    "1st Paper" "3" "http" "host").2 3 (by decide)

/-- C5: both list endpoints order notes by `createdAt` descending: with
three notes inserted at strictly increasing times, `GET /api/notes`
returns `[C, B, A]`, and so does the paper/chapter filter endpoint when
all three notes match the filter. -/
theorem listNotes_sorted_spec (A B C : Note) (p h paper s : String) (k : Int)
    (hAB : A.createdAt < B.createdAt) (hBC : B.createdAt < C.createdAt) :
    getAllNotes [A, B, C] p h =
      [withFullUrls p h C, withFullUrls p h B, withFullUrls p h A] ∧
    (A.paper = paper → B.paper = paper → C.paper = paper →
      parseIntJS s = some k →
      A.chapterId = k → B.chapterId = k → C.chapterId = k →
      getNotesByChapter [A, B, C] paper s p h = NotesResult.ok
        [withFullUrls p h C, withFullUrls p h B, withFullUrls p h A]) := by
  have h1 : B.createdAt ≤ C.createdAt := le_of_lt hBC
  have h2 : A.createdAt ≤ C.createdAt := le_of_lt (lt_trans hAB hBC)
  have h3 : A.createdAt ≤ B.createdAt := le_of_lt hAB
  have hsort : sortByCreatedAtDesc [A, B, C] = [C, B, A] := by
    simp [sortByCreatedAtDesc, insertByCreatedAtDesc, h1, h2, h3]
  constructor
  · rw [getAllNotes, hsort]
    rfl
  · intro hA hB hC hk hA2 hB2 hC2
    simp only [getNotesByChapter, hk]
    have hfil : [A, B, C].filter
        (fun n => n.paper == paper && n.chapterId == k) = [A, B, C] := by
      simp [List.filter, hA, hB, hC, hA2, hB2, hC2]
    rw [hfil, hsort]
    rfl

theorem listNotes_sorted_witness :
    getAllNotes
      [{ id := 1, title := "A", authorName := "a", paper := "1st Paper",
         chapterId := 2, images := [], createdAt := 10 },
       { id := 2, title := "B", authorName := "a", paper := "1st Paper",
         chapterId := 2, images := [], createdAt := 20 },
       { id := 3, title := "C", authorName := "a", paper := "1st Paper",
         chapterId := 2, images := [], createdAt := 30 }] "http" "host" =
      [withFullUrls "http" "host"
        { id := 3, title := "C", authorName := "a", paper := "1st Paper",
          chapterId := 2, images := [], createdAt := 30 },
       withFullUrls "http" "host"
        { id := 2, title := "B", authorName := "a", paper := "1st Paper",
          chapterId := 2, images := [], createdAt := 20 },
       withFullUrls "http" "host"
        { id := 1, title := "A", authorName := "a", paper := "1st Paper",
          chapterId := 2, images := [], createdAt := 10 }] ∧
    getNotesByChapter
      [{ id := 1, title := "A", authorName := "a", paper := "1st Paper",
         chapterId := 2, images := [], createdAt := 10 },
       { id := 2, title := "B", authorName := "a", paper := "1st Paper",
         chapterId := 2, images := [], createdAt := 20 },
       { id := 3, title := "C", authorName := "a", paper := "1st Paper",
         chapterId := 2, images := [], createdAt := 30 }] "1st Paper" "2" "http" "host" =
      NotesResult.ok
      [withFullUrls "http" "host"
        { id := 3, title := "C", authorName := "a", paper := "1st Paper",
          chapterId := 2, images := [], createdAt := 30 },
       withFullUrls "http" "host"
        { id := 2, title := "B", authorName := "a", paper := "1st Paper",
          chapterId := 2, images := [], createdAt := 20 },
       withFullUrls "http" "host"
        { id := 1, title := "A", authorName := "a", paper := "1st Paper",
          chapterId := 2, images := [], createdAt := 10 }] := by
  refine ⟨(listNotes_sorted_spec _ _ _ "http" "host" "1st Paper" "2" 2
    (by decide) (by decide)).1, ?_⟩
  exact (listNotes_sorted_spec _ _ _ "http" "host" "1st Paper" "2" 2
    (by decide) (by decide)).2 rfl rfl rfl (by decide) rfl rfl rfl

/-- C6: every note returned by the two list endpoints is a database note
whose `images` entries are each left unchanged when they already start
with `"http"` (an absolute URL) and otherwise prefixed with the request
scheme and host, and whose every other field is unaltered. -/
theorem notesWithFullUrls_spec (db : List Note) (paper s p h : String) :
    (∀ n ∈ getAllNotes db p h, ∃ m : Note, m ∈ db ∧
      n.id = m.id ∧ n.title = m.title ∧ n.authorName = m.authorName ∧
      n.paper = m.paper ∧ n.chapterId = m.chapterId ∧ n.createdAt = m.createdAt ∧
      n.images = m.images.map (fun img =>
        if startsWithJS img "http" then img else p ++ "://" ++ h ++ img)) ∧
    (∀ notes : List Note, getNotesByChapter db paper s p h = NotesResult.ok notes →
      ∀ n ∈ notes, ∃ m : Note, m ∈ db ∧
      n.id = m.id ∧ n.title = m.title ∧ n.authorName = m.authorName ∧
      n.paper = m.paper ∧ n.chapterId = m.chapterId ∧ n.createdAt = m.createdAt ∧
      n.images = m.images.map (fun img =>
        if startsWithJS img "http" then img else p ++ "://" ++ h ++ img)) := by
  constructor
  · intro n hn
    rw [getAllNotes, List.mem_map] at hn
    obtain ⟨m, hm, rfl⟩ := hn
    rw [mem_sortByCreatedAtDesc] at hm
    exact ⟨m, hm, rfl, rfl, rfl, rfl, rfl, rfl, rfl⟩
  · intro notes hnotes n hn
    cases hk : parseIntJS s with
    | none => simp [getNotesByChapter, hk] at hnotes
    | some k =>
      simp only [getNotesByChapter, hk, NotesResult.ok.injEq] at hnotes
      rw [← hnotes, List.mem_map] at hn
      obtain ⟨m, hm, rfl⟩ := hn
      rw [mem_sortByCreatedAtDesc, List.mem_filter] at hm
      exact ⟨m, hm.1, rfl, rfl, rfl, rfl, rfl, rfl, rfl⟩

theorem notesWithFullUrls_witness :
    ∃ m : Note,
      m ∈ [{ id := 1, title := "t", authorName := "a", paper := "1st Paper",
             chapterId := 2, images := ["/uploads/a.png", "http://cdn/b.png"],
             createdAt := 0 }] ∧
      (withFullUrls "http" "host"
        { id := 1, title := "t", authorName := "a", paper := "1st Paper",
          chapterId := 2, images := ["/uploads/a.png", "http://cdn/b.png"],
          createdAt := 0 }).id = m.id ∧
      (withFullUrls "http" "host"
        { id := 1, title := "t", authorName := "a", paper := "1st Paper",
          chapterId := 2, images := ["/uploads/a.png", "http://cdn/b.png"],
          createdAt := 0 }).title = m.title ∧
      (withFullUrls "http" "host"
        { id := 1, title := "t", authorName := "a", paper := "1st Paper",
          chapterId := 2, images := ["/uploads/a.png", "http://cdn/b.png"],
          createdAt := 0 }).authorName = m.authorName ∧
      (withFullUrls "http" "host"
        { id := 1, title := "t", authorName := "a", paper := "1st Paper",
          chapterId := 2, images := ["/uploads/a.png", "http://cdn/b.png"],
          createdAt := 0 }).paper = m.paper ∧
      (withFullUrls "http" "host"
        { id := 1, title := "t", authorName := "a", paper := "1st Paper",
          chapterId := 2, images := ["/uploads/a.png", "http://cdn/b.png"],
          createdAt := 0 }).chapterId = m.chapterId ∧
      (withFullUrls "http" "host"
        { id := 1, title := "t", authorName := "a", paper := "1st Paper",
          chapterId := 2, images := ["/uploads/a.png", "http://cdn/b.png"],
          createdAt := 0 }).createdAt = m.createdAt ∧
      (withFullUrls "http" "host"
        { id := 1, title := "t", authorName := "a", paper := "1st Paper",
          chapterId := 2, images := ["/uploads/a.png", "http://cdn/b.png"],
          createdAt := 0 }).images = m.images.map (fun img =>
        if startsWithJS img "http" then img else "http" ++ "://" ++ "host" ++ img) :=
  (notesWithFullUrls_spec
    [{ id := 1, title := "t", authorName := "a", paper := "1st Paper",
       chapterId := 2, images := ["/uploads/a.png", "http://cdn/b.png"],
       createdAt := 0 }] "1st Paper" "2" "http" "host").1
    (withFullUrls "http" "host"
      { id := 1, title := "t", authorName := "a", paper := "1st Paper",
        chapterId := 2, images := ["/uploads/a.png", "http://cdn/b.png"],
        createdAt := 0 })
    (by decide)

theorem createNote_success (st : ServerState) (req : CreateRequest) (newId : Nat) (k : Int)
    (hf : req.files ≠ [])
    (ht : checkRequiredString req.title = true)
    (ha : checkRequiredString req.authorName = true)
    (hp : checkRequiredString req.paper = true)
    (hk : castChapterId req.chapterId = some k) :
    createNote st req newId =
      (CreateResult.created
        { id := newId, title := req.title.getD "", authorName := req.authorName.getD "",
          paper := req.paper.getD "", chapterId := k,
          images := req.files.map
            (fun f => req.protocol ++ "://" ++ req.host ++ ("/uploads/" ++ f)),
          createdAt := req.now },
       { db := st.db ++
          [{ id := newId, title := req.title.getD "", authorName := req.authorName.getD "",
             paper := req.paper.getD "", chapterId := k,
             images := req.files.map (fun f => "/uploads/" ++ f), createdAt := req.now }],
         files := st.files ++ req.files }) := by
  unfold createNote
  rw [if_neg hf, ht, ha, hp, hk]
  simp [List.map_map, Function.comp]

/-- C8: a successfully created note with exactly three uploaded files
appears in a subsequent listing with exactly those three image URLs, in
upload order, each prefixed with the listing request's scheme and host. -/
theorem createNote_roundTrip_spec (st : ServerState) (req : CreateRequest) (newId : Nat)
    (f1 f2 f3 : String) (k : Int) (p2 h2 : String)
    (hf : req.files = [f1, f2, f3])
    (ht : checkRequiredString req.title = true)
    (ha : checkRequiredString req.authorName = true)
    (hp : checkRequiredString req.paper = true)
    (hk : castChapterId req.chapterId = some k) :
    (createNote st req newId).1.status = 201 ∧
    ∃ m : Note, m ∈ getAllNotes (createNote st req newId).2.db p2 h2 ∧
      m.id = newId ∧
      m.images = [p2 ++ "://" ++ h2 ++ ("/uploads/" ++ f1),
                  p2 ++ "://" ++ h2 ++ ("/uploads/" ++ f2),
                  p2 ++ "://" ++ h2 ++ ("/uploads/" ++ f3)] := by
  have hfne : req.files ≠ [] := by rw [hf]; simp
  have hsucc := createNote_success st req newId k hfne ht ha hp hk
  rw [hsucc]
  refine ⟨rfl, ?_⟩
  refine ⟨withFullUrls p2 h2
    { id := newId, title := req.title.getD "", authorName := req.authorName.getD "",
      paper := req.paper.getD "", chapterId := k,
      images := req.files.map (fun f => "/uploads/" ++ f), createdAt := req.now },
    ?_, rfl, ?_⟩
  · rw [getAllNotes, List.mem_map]
    refine ⟨_, mem_sortByCreatedAtDesc.2 ?_, rfl⟩
    simp
  · simp [withFullUrls, toFullUrl, hf, startsWithJS_uploads]

theorem createNote_roundTrip_witness :
    (createNote ⟨[], []⟩
      ⟨some "t", some "a", some "1st Paper", some "3",
        ["x1.png", "x2.png", "x3.png"], "http", "h", 5⟩ 7).1.status = 201 ∧
    ∃ m : Note, m ∈ getAllNotes
      (createNote ⟨[], []⟩
        ⟨some "t", some "a", some "1st Paper", some "3",
          ["x1.png", "x2.png", "x3.png"], "http", "h", 5⟩ 7).2.db "https" "ex.com" ∧
      m.id = 7 ∧
      m.images = ["https" ++ "://" ++ "ex.com" ++ ("/uploads/" ++ "x1.png"),
                  "https" ++ "://" ++ "ex.com" ++ ("/uploads/" ++ "x2.png"),
                  "https" ++ "://" ++ "ex.com" ++ ("/uploads/" ++ "x3.png")] :=
  createNote_roundTrip_spec ⟨[], []⟩
    ⟨some "t", some "a", some "1st Paper", some "3",
      ["x1.png", "x2.png", "x3.png"], "http", "h", 5⟩ 7
    "x1.png" "x2.png" "x3.png" 3 "https" "ex.com" rfl rfl rfl rfl (by decide)

theorem unlinkImages_ok (imgs : List String) : ∀ files : List String,
    (∀ img ∈ imgs, regularBasename (basenameJS img) = true) →
    files.Nodup →
    ∃ files2, unlinkImages files imgs = Except.ok files2 ∧ files2.Nodup ∧
      (∀ x ∈ files2, x ∈ files) ∧ (∀ img ∈ imgs, basenameJS img ∉ files2) := by
  induction imgs with
  | nil =>
    intro files _ hnd
    exact ⟨files, rfl, hnd, fun x hx => hx, by simp⟩
  | cons img rest ih =>
    intro files hreg hnd
    have hr : regularBasename (basenameJS img) = true :=
      hreg img (List.mem_cons_self img rest)
    by_cases hmem : basenameJS img ∈ files
    · obtain ⟨files2, heq, hnd2, hsub, hgone⟩ :=
        ih (files.erase (basenameJS img))
          (fun i hi => hreg i (List.mem_cons_of_mem _ hi)) (hnd.erase _)
      refine ⟨files2, ?_, hnd2, ?_, ?_⟩
      · simp only [unlinkImages, if_pos hr, if_pos hmem]
        exact heq
      · intro x hx
        exact List.mem_of_mem_erase (hsub x hx)
      · intro i hi
        rcases List.mem_cons.1 hi with rfl | hi'
        · intro hx
          exact ((List.Nodup.mem_erase_iff hnd).1 (hsub _ hx)).1 rfl
        · exact hgone i hi'
    · obtain ⟨files2, heq, hnd2, hsub, hgone⟩ :=
        ih files (fun i hi => hreg i (List.mem_cons_of_mem _ hi)) hnd
      refine ⟨files2, ?_, hnd2, hsub, ?_⟩
      · simp only [unlinkImages, if_pos hr, if_neg hmem]
        exact heq
      · intro i hi
        rcases List.mem_cons.1 hi with rfl | hi'
        · intro hx
          exact hmem (hsub _ hx)
        · exact hgone i hi'

theorem findById_eraseP (db : List Note) (id : Nat) (hnd : (db.map Note.id).Nodup)
    {note : Note} (hfind : findById db id = some note) :
    findById (db.eraseP (fun n => n.id == id)) id = none := by
  induction db with
  | nil => simp [findById] at hfind
  | cons b bs ih =>
    rw [List.map_cons] at hnd
    by_cases hb : b.id = id
    · have hpb : (fun n : Note => n.id == id) b = true := by simp [hb]
      rw [List.eraseP_cons_of_pos (p := fun n : Note => n.id == id) hpb,
        findById, List.find?_eq_none]
      intro x hx hxid
      have hxi : x.id = id := by simpa using hxid
      have hbmem : b.id ∈ bs.map Note.id := by
        rw [hb, ← hxi]
        exact List.mem_map_of_mem _ hx
      exact (List.nodup_cons.1 hnd).1 hbmem
    · have hpb : ¬((fun n : Note => n.id == id) b = true) := by simp [hb]
      rw [List.eraseP_cons_of_neg (p := fun n : Note => n.id == id) hpb]
      show List.find? (fun n => n.id == id) (b :: bs.eraseP (fun n => n.id == id)) = none
      rw [List.find?_cons_of_neg (p := fun n : Note => n.id == id) _ hpb]
      have hfind' : findById bs id = some note := by
        rw [findById, List.find?_cons_of_neg (p := fun n : Note => n.id == id) _ hpb] at hfind
        exact hfind
      exact ih (List.nodup_cons.1 hnd).2 hfind'

/-- C1: deleting a non-existent id answers 404 "Note not found" with no
change to the database or the file store; deleting an existing note
removes every referenced file from the uploads directory (absent files
are skipped silently), deletes the database record and answers 200
"Note deleted successfully"; deleting the same id again then answers
404. -/
theorem deleteNote_spec (st : ServerState) (id : Nat) :
    (findById st.db id = none →
      deleteNote st id = (DeleteResult.notFound "Note not found", st) ∧
      (deleteNote st id).1.status = 404) ∧
    (∀ note : Note, findById st.db id = some note →
      (∀ img ∈ note.images, regularBasename (basenameJS img) = true) →
      (st.db.map Note.id).Nodup → st.files.Nodup →
      (deleteNote st id).1 = DeleteResult.deleted "Note deleted successfully" ∧
      (deleteNote st id).1.status = 200 ∧
      (∀ img ∈ note.images, basenameJS img ∉ (deleteNote st id).2.files) ∧
      findById (deleteNote st id).2.db id = none ∧
      (deleteNote (deleteNote st id).2 id).1 = DeleteResult.notFound "Note not found" ∧
      (deleteNote (deleteNote st id).2 id).1.status = 404) := by
  constructor
  · intro h
    constructor
    · simp [deleteNote, h]
    · simp [deleteNote, h, DeleteResult.status]
  · intro note hfind hreg hnd hfnd
    obtain ⟨files2, hok, _, _, hgone⟩ := unlinkImages_ok note.images st.files hreg hfnd
    have hdel : deleteNote st id =
        (DeleteResult.deleted "Note deleted successfully",
         { db := st.db.eraseP (fun n => n.id == id), files := files2 }) := by
      simp [deleteNote, hfind, hok]
    have hnone : findById (st.db.eraseP (fun n => n.id == id)) id = none :=
      findById_eraseP st.db id hnd hfind
    rw [hdel]
    refine ⟨rfl, rfl, hgone, hnone, ?_, ?_⟩
    · simp [deleteNote, hnone]
    · simp [deleteNote, hnone, DeleteResult.status]

theorem deleteNote_spec_witness :
    (deleteNote
      ⟨[{ id := 1, title := "t", authorName := "a", paper := "1st Paper",
          chapterId := 2, images := ["/uploads/a.png", "/uploads/ghost.png"],
          createdAt := 5 }], ["a.png", "b.png"]⟩ 1).1
      = DeleteResult.deleted "Note deleted successfully" ∧
    (deleteNote
      ⟨[{ id := 1, title := "t", authorName := "a", paper := "1st Paper",
          chapterId := 2, images := ["/uploads/a.png", "/uploads/ghost.png"],
          createdAt := 5 }], ["a.png", "b.png"]⟩ 1).1.status = 200 ∧
    (∀ img ∈ ["/uploads/a.png", "/uploads/ghost.png"], basenameJS img ∉
      (deleteNote
        ⟨[{ id := 1, title := "t", authorName := "a", paper := "1st Paper",
            chapterId := 2, images := ["/uploads/a.png", "/uploads/ghost.png"],
            createdAt := 5 }], ["a.png", "b.png"]⟩ 1).2.files) ∧
    findById
      (deleteNote
        ⟨[{ id := 1, title := "t", authorName := "a", paper := "1st Paper",
            chapterId := 2, images := ["/uploads/a.png", "/uploads/ghost.png"],
            createdAt := 5 }], ["a.png", "b.png"]⟩ 1).2.db 1 = none ∧
    (deleteNote
      (deleteNote
        ⟨[{ id := 1, title := "t", authorName := "a", paper := "1st Paper",
            chapterId := 2, images := ["/uploads/a.png", "/uploads/ghost.png"],
            createdAt := 5 }], ["a.png", "b.png"]⟩ 1).2 1).1
      = DeleteResult.notFound "Note not found" ∧
    (deleteNote
      (deleteNote
        ⟨[{ id := 1, title := "t", authorName := "a", paper := "1st Paper",
            chapterId := 2, images := ["/uploads/a.png", "/uploads/ghost.png"],
            createdAt := 5 }], ["a.png", "b.png"]⟩ 1).2 1).1.status = 404 :=
  (deleteNote_spec
    ⟨[{ id := 1, title := "t", authorName := "a", paper := "1st Paper",
        chapterId := 2, images := ["/uploads/a.png", "/uploads/ghost.png"],
        createdAt := 5 }], ["a.png", "b.png"]⟩ 1).2
    { id := 1, title := "t", authorName := "a", paper := "1st Paper",
      chapterId := 2, images := ["/uploads/a.png", "/uploads/ghost.png"],
      createdAt := 5 }
    (by decide) (by decide) (by decide) (by decide)

/-- C10 counterexample: the claim says every `images` entry, including
entries containing `'..'`, yields a deletion target directly inside the
uploads directory; but for the entry `".."` the basename is `".."` and
`path.join(__dirname, 'uploads', '..')` normalizes to the server
directory itself, which is not inside the uploads directory. -/
theorem deleteTarget_claim_counterexample :
    deleteTargetSegments ".." = ["__dirname"] ∧
    ¬∃ name : String, deleteTargetSegments ".." = ["__dirname", "uploads", name] := by
  constructor
  · decide
  · rintro ⟨name, hx⟩
    rw [show deleteTargetSegments ".." = ["__dirname"] from by decide] at hx
    simp at hx

/-- C10 amended: the deletion path is computed from the basename of the
stored entry only, and a basename never contains a separator; for every
entry whose basename is a regular file name (not empty, `"."` or `".."`)
the target lies directly inside the uploads directory, while an entry
with a degenerate basename resolves to the uploads directory itself or
its parent directory instead. -/
theorem deleteTarget_amended_spec (img : String) :
    ((basenameJS img).toList.all (fun c => !(c = '/')) = true) ∧
    (regularBasename (basenameJS img) = true →
      deleteTargetSegments img = ["__dirname", "uploads", basenameJS img]) ∧
    (regularBasename (basenameJS img) = false →
      deleteTargetSegments img = ["__dirname", "uploads"] ∨
      deleteTargetSegments img = ["__dirname"]) := by
  refine ⟨?_, ?_, ?_⟩
  · rw [basenameJS]
    show (((img.toList.reverse.dropWhile (fun c => c = '/')).takeWhile
      (fun c => !(c = '/'))).reverse).all (fun c => !(c = '/')) = true
    rw [List.all_eq_true]
    intro c hc
    rw [List.mem_reverse] at hc
    simpa using List.mem_takeWhile_imp hc
  · intro hr
    simp only [regularBasename, Bool.not_eq_true', Bool.or_eq_false_iff,
      beq_eq_false_iff_ne] at hr
    obtain ⟨⟨h1, h2⟩, h3⟩ := hr
    rw [deleteTargetSegments, joinSegments, if_neg h1, if_neg h2, if_neg h3]
    rfl
  · intro hr
    simp only [regularBasename, Bool.not_eq_false', Bool.or_eq_true,
      beq_iff_eq] at hr
    rcases hr with (h | h) | h
    · left
      rw [deleteTargetSegments, h]
      decide
    · left
      rw [deleteTargetSegments, h]
      decide
    · right
      rw [deleteTargetSegments, h]
      decide

theorem deleteTarget_amended_witness :
    deleteTargetSegments "/uploads/image-1.png"
      = ["__dirname", "uploads", basenameJS "/uploads/image-1.png"] :=
  (deleteTarget_amended_spec "/uploads/image-1.png").2.1 (by decide)

end AccBackend
